import Mathlib

/-!
Verification of the token lifecycle manager (`src/auth_service.py`) and the
lineage graph projection (`src/lineage_service.py`) of the atlan backend
facade, as a shallow embedding in Lean 4.

Network effects are modelled by passing the outcome of each outbound HTTP
call as an explicit argument: a token-endpoint call yields either a request
exception (`Except.error ()`) or a parsed JSON body (`TokenResponse`).
Clock reads (`datetime.now()`) are modelled by an explicit `now : Nat`
argument.  Python truthiness of optional strings (None and the empty string
are falsy) is modelled by `optStrTruthy`.
-/

/-- Parsed JSON body of a successful token-endpoint response.  Each field is
read with `data.get(...)`, hence optional. -/
structure TokenResponse where
  access_token : Option String
  refresh_token : Option String
  expires_in : Option Nat
deriving Repr, DecidableEq

/-- The mutable credential state of `AuthService`: `_access_token`,
`_token_expiry`, `_refresh_token`, all initialised to `None`. -/
structure AuthState where
  access_token : Option String
  token_expiry : Option Nat
  refresh_token : Option String
deriving Repr, DecidableEq

/-- Python truthiness of an optional string: `None` and `""` are falsy. -/
def optStrTruthy : Option String → Bool
  | none => false
  | some s => s ≠ ""

/-- The cache-validity test of `get_access_token` (auth_service.py line 53):
`self._access_token and self._token_expiry and datetime.now() < self._token_expiry`.
A present `datetime` is always truthy. -/
def isTokenValid (now : Nat) (s : AuthState) : Bool :=
  optStrTruthy s.access_token &&
    (match s.token_expiry with
     | none => false
     | some e => decide (now < e))

/-- The state update common to `_get_new_access_token` and
`_refresh_access_token` (auth_service.py lines 90-95 and 125-130): store the
response's tokens and set `_token_expiry = now + expires_in`, where
`expires_in` defaults to 3600 when absent. -/
def applyTokenResponse (now : Nat) (d : TokenResponse) (_s : AuthState) : AuthState :=
  { access_token := d.access_token
    refresh_token := d.refresh_token
    token_expiry := some (now + d.expires_in.getD 3600) }

/-- Errors surfaced by the token lifecycle. -/
inductive AuthErr
  | authenticationFailed
  | tokenRefreshFailed
deriving Repr, DecidableEq

deriving instance DecidableEq for Except

/-- `_get_new_access_token` (auth_service.py lines 68-100): on a request
exception the state is untouched and `Exception("Authentication failed")`
is raised; on success all three credential fields are overwritten. -/
def getNewAccessToken (now : Nat) (resp : Except Unit TokenResponse) (s : AuthState) :
    Except AuthErr Unit × AuthState :=
  match resp with
  | .ok d => (.ok (), applyTokenResponse now d s)
  | .error _ => (.error .authenticationFailed, s)

/-- `_refresh_access_token` (auth_service.py lines 102-135): on a request
exception the state is untouched and `Exception("Token refresh failed")`
is raised; on success all three credential fields are overwritten. -/
def refreshAccessToken (now : Nat) (resp : Except Unit TokenResponse) (s : AuthState) :
    Except AuthErr Unit × AuthState :=
  match resp with
  | .ok d => (.ok (), applyTokenResponse now d s)
  | .error _ => (.error .tokenRefreshFailed, s)

/-- Outbound token-endpoint calls, by grant type. -/
inductive NetCall
  | refresh
  | mint
deriving Repr, DecidableEq

/-- Result of one `get_access_token()` call: the value returned to the caller
(or the exception propagated), the credential state afterwards, and the
trace of outbound token-endpoint calls issued. -/
structure GetTokenResult where
  result : Except AuthErr (Option String)
  state : AuthState
  calls : List NetCall
deriving Repr, DecidableEq

/-- `get_access_token` (auth_service.py lines 45-66). `refreshResp` and
`mintResp` are the outcomes the network would give to a refresh-grant and a
credential-grant call respectively. -/
def get_access_token (now : Nat) (refreshResp mintResp : Except Unit TokenResponse)
    (s : AuthState) : GetTokenResult :=
  if isTokenValid now s then
    ⟨.ok s.access_token, s, []⟩
  else if optStrTruthy s.refresh_token then
    match refreshAccessToken now refreshResp s with
    | (.ok _, s1) => ⟨.ok s1.access_token, s1, [.refresh]⟩
    | (.error _, s1) =>
      match getNewAccessToken now mintResp s1 with
      | (.ok _, s2) => ⟨.ok s2.access_token, s2, [.refresh, .mint]⟩
      | (.error e, s2) => ⟨.error e, s2, [.refresh, .mint]⟩
  else
    match getNewAccessToken now mintResp s with
    | (.ok _, s2) => ⟨.ok s2.access_token, s2, [.mint]⟩
    | (.error e, s2) => ⟨.error e, s2, [.mint]⟩

/-- A sequence of `get_access_token()` calls against the shared credential
state: threads the state through, concatenates the network-call traces and
collects the per-call results. -/
def runGetAccessTokenSeq :
    List (Nat × Except Unit TokenResponse × Except Unit TokenResponse) → AuthState →
    AuthState × List NetCall × List (Except AuthErr (Option String))
  | [], s => (s, [], [])
  | (t, r, m) :: rest, s =>
    let one := get_access_token t r m s
    let restRes := runGetAccessTokenSeq rest one.state
    (restRes.1, one.calls ++ restRes.2.1, one.result :: restRes.2.2)

/-- Outcome of a single HTTP GET as seen by `validate_token`: either a
response with a status code, or an exception (network error, timeout). -/
inductive HttpOutcome
  | status (code : Nat)
  | exc
deriving Repr, DecidableEq

/-- `validate_token` (auth_service.py lines 238-260): returns
`status_code == 200`, and `False` on any exception (bare `except:`). -/
def validate_token (outcome : HttpOutcome) : Bool :=
  match outcome with
  | .status c => c == 200
  | .exc => false

/-- The configuration fields of `AuthService` relevant to `get_headers`. -/
structure AuthConfig where
  api_key : Option String
deriving Repr, DecidableEq

/-- The two headers `get_headers` always constructs first
(auth_service.py lines 144-147). -/
def baseHeaders : List (String × String) :=
  [("Content-Type", "application/json"), ("Accept", "application/json")]

/-- Python string interpolation of an optional token:
`f"Bearer {tok}"` renders `None` as the string "None". -/
def optTokenStr : Option String → String
  | none => "None"
  | some t => t

/-- Result of one `get_headers()` call. -/
structure GetHeadersResult where
  result : Except AuthErr (List (String × String))
  state : AuthState
  calls : List NetCall
deriving Repr, DecidableEq

/-- `get_headers` (auth_service.py lines 137-155): if a static API key is
configured (truthy), add `X-Atlan-API-Key`; otherwise add
`Authorization: Bearer <get_access_token()>`. -/
def get_headers (cfg : AuthConfig) (now : Nat)
    (refreshResp mintResp : Except Unit TokenResponse) (s : AuthState) :
    GetHeadersResult :=
  if optStrTruthy cfg.api_key then
    ⟨.ok (baseHeaders ++ [("X-Atlan-API-Key", cfg.api_key.getD "")]), s, []⟩
  else
    let r := get_access_token now refreshResp mintResp s
    match r.result with
    | .ok tok =>
      ⟨.ok (baseHeaders ++ [("Authorization", "Bearer " ++ optTokenStr tok)]), r.state, r.calls⟩
    | .error e => ⟨.error e, r.state, r.calls⟩

/-! ## Lineage graph projection (`src/lineage_service.py` lines 296-324) -/

/-- A raw lineage entity.  Every key access in the source is modelled: `guid`,
`typeName` and `attributes` are read with `entity[...]` (KeyError when
absent, hence `Option` here), and `attributes` is a string-valued mapping
that may contain `name`. -/
structure Entity where
  guid : Option String
  typeName : Option String
  attributes : Option (List (String × String))
deriving Repr, DecidableEq

/-- A raw lineage relation: `fromEntityGuid` and `toEntityGuid` are read with
`relation[...]`, `relationshipType` with `.get(..., 'Unknown')`. -/
structure Relation where
  fromEntityGuid : Option String
  toEntityGuid : Option String
  relationshipType : Option String
deriving Repr, DecidableEq

/-- A raw lineage payload: the `entities` and `relations` keys may each be
absent (`'entities' in lineage_data` / `'relations' in lineage_data`). -/
structure LineagePayload where
  entities : Option (List Entity)
  relations : Option (List Relation)
deriving Repr, DecidableEq

/-- A node of the projected graph. -/
structure Node where
  id : String
  label : String
  type : String
  data : Entity
deriving Repr, DecidableEq

/-- An edge of the projected graph. -/
structure Edge where
  id : String
  source : String
  target : String
  label : String
  data : Relation
deriving Repr, DecidableEq

/-- The projected graph. -/
structure Graph where
  nodes : List Node
  edges : List Edge
deriving Repr, DecidableEq

/-- Python dict KeyError, carrying the missing key. -/
inductive ProjErr
  | keyError (key : String)
deriving Repr, DecidableEq

/-- Python `dict.get(k, dflt)` over a string-valued mapping. -/
def lookupAttr (attrs : List (String × String)) (k dflt : String) : String :=
  match attrs.find? (fun p => p.1 == k) with
  | some p => p.2
  | none => dflt

/-- Node construction (lineage_service.py lines 304-309): `entity['guid']`,
`entity['attributes'].get('name', 'Unknown')`, `entity['typeName']`, in the
source's evaluation order; a missing required key raises KeyError. -/
def projectNode (e : Entity) : Except ProjErr Node :=
  match e.guid with
  | none => .error (.keyError "guid")
  | some g =>
    match e.attributes with
    | none => .error (.keyError "attributes")
    | some attrs =>
      match e.typeName with
      | none => .error (.keyError "typeName")
      | some t =>
        .ok { id := g, label := lookupAttr attrs "name" "Unknown", type := t, data := e }

/-- Edge construction (lineage_service.py lines 315-321):
`f"{relation['fromEntityGuid']}_{relation['toEntityGuid']}"` and the
`source`/`target`/`label` fields; a missing endpoint guid raises KeyError. -/
def projectEdge (r : Relation) : Except ProjErr Edge :=
  match r.fromEntityGuid with
  | none => .error (.keyError "fromEntityGuid")
  | some f =>
    match r.toEntityGuid with
    | none => .error (.keyError "toEntityGuid")
    | some t =>
      .ok { id := f ++ "_" ++ t, source := f, target := t,
            label := r.relationshipType.getD "Unknown", data := r }

/-- `get_lineage_graph`'s projection loop (lineage_service.py lines 296-324):
append one node per entity in payload order, then one edge per relation in
payload order; a missing `entities` or `relations` key skips that loop. -/
def get_lineage_graph (p : LineagePayload) : Except ProjErr Graph := do
  let nodes ← (p.entities.getD []).mapM projectNode
  let edges ← (p.relations.getD []).mapM projectEdge
  return { nodes := nodes, edges := edges }

/-- The node the spec's algorithm describes for a well-formed entity
(spec §4.4 and §3), written over the optional-field representation with
defaults that are never reached on well-formed input. -/
def specProjectedNode (e : Entity) : Node :=
  { id := e.guid.getD ""
    label := lookupAttr (e.attributes.getD []) "name" "Unknown"
    type := e.typeName.getD ""
    data := e }

/-- The edge the spec's algorithm describes for a well-formed relation
(spec §4.4 and §3). -/
def specProjectedEdge (r : Relation) : Edge :=
  { id := r.fromEntityGuid.getD "" ++ "_" ++ r.toEntityGuid.getD ""
    source := r.fromEntityGuid.getD ""
    target := r.toEntityGuid.getD ""
    label := r.relationshipType.getD "Unknown"
    data := r }

/-! ## Helper lemmas -/

theorem get_access_token_of_valid (now : Nat) (r m : Except Unit TokenResponse)
    (s : AuthState) (h : isTokenValid now s = true) :
    get_access_token now r m s = ⟨.ok s.access_token, s, []⟩ := by
  unfold get_access_token
  rw [h]
  simp

theorem mapM_projectNode_of_wf (l : List Entity)
    (h : ∀ e ∈ l, e.guid.isSome ∧ e.typeName.isSome ∧ e.attributes.isSome) :
    l.mapM projectNode = .ok (l.map specProjectedNode) := by
  induction l with
  | nil => rfl
  | cons e rest ih =>
    obtain ⟨hg, ht, ha⟩ := h e (List.mem_cons_self e rest)
    obtain ⟨g, hg'⟩ := Option.isSome_iff_exists.mp hg
    obtain ⟨t, ht'⟩ := Option.isSome_iff_exists.mp ht
    obtain ⟨a, ha'⟩ := Option.isSome_iff_exists.mp ha
    have hrest := ih (fun x hx => h x (List.mem_cons_of_mem e hx))
    simp only [List.mapM_cons, hrest, List.map_cons]
    simp only [projectNode, specProjectedNode, hg', ht', ha']
    rfl

theorem mapM_projectEdge_of_wf (l : List Relation)
    (h : ∀ r ∈ l, r.fromEntityGuid.isSome ∧ r.toEntityGuid.isSome) :
    l.mapM projectEdge = .ok (l.map specProjectedEdge) := by
  induction l with
  | nil => rfl
  | cons r rest ih =>
    obtain ⟨hf, ht⟩ := h r (List.mem_cons_self r rest)
    obtain ⟨f, hf'⟩ := Option.isSome_iff_exists.mp hf
    obtain ⟨t, ht'⟩ := Option.isSome_iff_exists.mp ht
    have hrest := ih (fun x hx => h x (List.mem_cons_of_mem r hx))
    simp only [List.mapM_cons, hrest, List.map_cons]
    simp only [projectEdge, specProjectedEdge, hf', ht']
    rfl

/-! ## Claim theorems -/

/-- Claim C8: projecting the empty payload (both keys absent) yields the
empty graph, without error. -/
theorem lineage_empty_payload :
    get_lineage_graph ⟨none, none⟩ = .ok ⟨[], []⟩ := by
  rfl

/-- Claim C6: `validate_token` returns `true` iff the HTTP status is exactly
200, returns `false` on any exception, and never raises (it is a total
function into `Bool`). -/
theorem validate_token_spec (o : HttpOutcome) :
    (validate_token o = true ↔ o = .status 200) ∧ validate_token .exc = false := by
  constructor
  · cases o with
    | status c =>
      simp [validate_token]
    | exc => simp [validate_token]
  · rfl

/-- Claim C9: after a successful mint or refresh, the stored expiry is the
current time plus the vendor-supplied `expires_in`, defaulting to 3600
seconds when absent. -/
theorem token_expiry_computation (now : Nat) (d : TokenResponse) (s : AuthState) :
    (getNewAccessToken now (.ok d) s).2.token_expiry = some (now + d.expires_in.getD 3600) ∧
    (refreshAccessToken now (.ok d) s).2.token_expiry = some (now + d.expires_in.getD 3600) := by
  constructor <;> rfl

/-- Claim C10: a mint or refresh attempt that fails with a request exception
leaves the credential state exactly as it was; the fields are mutated only
after the outbound call has succeeded. -/
theorem state_unchanged_on_failed_attempt (now : Nat) (s : AuthState) :
    (getNewAccessToken now (.error ()) s).2 = s ∧
    (refreshAccessToken now (.error ()) s).2 = s := by
  constructor <;> rfl

/-- Claim C1: for every sequence of `get_access_token()` calls whose times all
fall inside the validity window of the cached state, every call returns the
cached `access_token`, the state is untouched, and no outbound network call
is issued. -/
theorem cache_hit_no_network (s : AuthState)
    (cs : List (Nat × Except Unit TokenResponse × Except Unit TokenResponse))
    (h : ∀ c ∈ cs, isTokenValid c.1 s = true) :
    runGetAccessTokenSeq cs s = (s, [], cs.map fun _ => Except.ok s.access_token) := by
  induction cs with
  | nil => rfl
  | cons c rest ih =>
    obtain ⟨t, r, m⟩ := c
    have hc : isTokenValid t s = true := h (t, r, m) (List.mem_cons_self _ _)
    have hrest := ih (fun x hx => h x (List.mem_cons_of_mem _ hx))
    simp only [runGetAccessTokenSeq, get_access_token_of_valid t r m s hc, hrest,
      List.map_cons, List.nil_append]

theorem cache_hit_no_network_witness :
    runGetAccessTokenSeq [(1, .error (), .error ()), (50, .error (), .error ())]
      ⟨some "tok", some 100, none⟩ =
      (⟨some "tok", some 100, none⟩, [], [.ok (some "tok"), .ok (some "tok")]) := by
  simpa using cache_hit_no_network ⟨some "tok", some 100, none⟩
    [(1, .error (), .error ()), (50, .error (), .error ())] (by decide)

/-- Claim C2: when the cached token is not valid and a (truthy) refresh token
is present, the call issues exactly one refresh-grant attempt, and it comes
before any credential-grant mint attempt. -/
theorem refresh_before_mint (now : Nat) (r m : Except Unit TokenResponse)
    (s : AuthState) (h1 : isTokenValid now s = false)
    (h2 : optStrTruthy s.refresh_token = true) :
    (get_access_token now r m s).calls = [NetCall.refresh] ∨
    (get_access_token now r m s).calls = [NetCall.refresh, NetCall.mint] := by
  cases r <;> cases m <;>
    simp [get_access_token, h1, h2, refreshAccessToken, getNewAccessToken]

theorem refresh_before_mint_witness :
    (get_access_token 5 (.error ()) (.error ())
      ⟨some "tok", some 3, some "ref"⟩).calls = [NetCall.refresh] ∨
    (get_access_token 5 (.error ()) (.error ())
      ⟨some "tok", some 3, some "ref"⟩).calls = [NetCall.refresh, NetCall.mint] :=
  refresh_before_mint 5 (.error ()) (.error ()) ⟨some "tok", some 3, some "ref"⟩
    (by decide) (by decide)

/-- Claim C3: when the refresh attempt fails, a mint attempt occurs in the
same call; the refresh failure is never surfaced to the caller; the returned
value is the token of the mint response when the mint succeeds, and a mint
failure raises the authentication error with the state untouched. -/
theorem refresh_failure_falls_back_to_mint (now : Nat) (m : Except Unit TokenResponse)
    (s : AuthState) (h1 : isTokenValid now s = false)
    (h2 : optStrTruthy s.refresh_token = true) :
    NetCall.mint ∈ (get_access_token now (.error ()) m s).calls ∧
    (get_access_token now (.error ()) m s).result ≠ .error .tokenRefreshFailed ∧
    (get_access_token now (.error ()) m s).result =
      (match m with
       | .ok d => .ok d.access_token
       | .error _ => .error .authenticationFailed) ∧
    (get_access_token now (.error ()) m s).state =
      (match m with
       | .ok d => applyTokenResponse now d s
       | .error _ => s) := by
  cases m <;>
    simp [get_access_token, h1, h2, refreshAccessToken, getNewAccessToken,
      applyTokenResponse]

theorem refresh_failure_falls_back_to_mint_witness :
    NetCall.mint ∈ (get_access_token 5 (.error ()) (.ok ⟨some "new", some "r2", some 7200⟩)
      ⟨none, none, some "ref"⟩).calls ∧
    (get_access_token 5 (.error ()) (.ok ⟨some "new", some "r2", some 7200⟩)
      ⟨none, none, some "ref"⟩).result ≠ .error .tokenRefreshFailed ∧
    (get_access_token 5 (.error ()) (.ok ⟨some "new", some "r2", some 7200⟩)
      ⟨none, none, some "ref"⟩).result = .ok (some "new") ∧
    (get_access_token 5 (.error ()) (.ok ⟨some "new", some "r2", some 7200⟩)
      ⟨none, none, some "ref"⟩).state = applyTokenResponse 5 ⟨some "new", some "r2", some 7200⟩
        ⟨none, none, some "ref"⟩ :=
  refresh_failure_falls_back_to_mint 5 (.ok ⟨some "new", some "r2", some 7200⟩)
    ⟨none, none, some "ref"⟩ (by decide) (by decide)

/-- Claim C4: on a payload whose entities all carry `guid`, `typeName` and
`attributes` and whose relations all carry both endpoint guids, the
projection emits exactly one node per entity and one edge per relation, in
payload order, with the fields the spec describes (`label` defaulting to
"Unknown", `edge.id = from ++ "_" ++ to`); nothing is dropped, deduplicated
or re-sorted. -/
theorem lineage_projection_faithful (p : LineagePayload)
    (he : ∀ e ∈ p.entities.getD [], e.guid.isSome ∧ e.typeName.isSome ∧ e.attributes.isSome)
    (hr : ∀ r ∈ p.relations.getD [], r.fromEntityGuid.isSome ∧ r.toEntityGuid.isSome) :
    get_lineage_graph p =
      .ok ⟨(p.entities.getD []).map specProjectedNode,
           (p.relations.getD []).map specProjectedEdge⟩ := by
  unfold get_lineage_graph
  rw [mapM_projectNode_of_wf _ he, mapM_projectEdge_of_wf _ hr]
  rfl

theorem lineage_projection_faithful_witness :
    get_lineage_graph
      ⟨some [⟨some "a1", some "Table", some [("name", "orders")]⟩],
       some [⟨some "a1", some "a2", some "DataFlow"⟩]⟩ =
      .ok ⟨[⟨"a1", "orders", "Table", ⟨some "a1", some "Table", some [("name", "orders")]⟩⟩],
           [⟨"a1_a2", "a1", "a2", "DataFlow", ⟨some "a1", some "a2", some "DataFlow"⟩⟩]⟩ := by
  simpa [specProjectedNode, specProjectedEdge, lookupAttr] using
    lineage_projection_faithful
      ⟨some [⟨some "a1", some "Table", some [("name", "orders")]⟩],
       some [⟨some "a1", some "a2", some "DataFlow"⟩]⟩ (by decide) (by decide)

/-- Claim C5 counterexample: an entity lacking the `guid` key makes the
projection raise a KeyError rather than produce a graph, so not every field
is optional/defaultable. -/
theorem lineage_missing_guid_errors :
    get_lineage_graph ⟨some [⟨none, some "Table", some [("name", "orders")]⟩], none⟩ =
      .error (.keyError "guid") := by
  rfl

/-- Claim C5 (amended): the projection is a pure total function on payloads in
which the `entities`/`relations` keys, `attributes.name` and
`relationshipType` are optional, but `guid`, `typeName` and `attributes` of
each entity and `fromEntityGuid`/`toEntityGuid` of each relation must be
present; on such payloads it produces a graph without error. -/
theorem lineage_projection_total_on_required_fields (p : LineagePayload)
    (he : ∀ e ∈ p.entities.getD [], e.guid.isSome ∧ e.typeName.isSome ∧ e.attributes.isSome)
    (hr : ∀ r ∈ p.relations.getD [], r.fromEntityGuid.isSome ∧ r.toEntityGuid.isSome) :
    ∃ g : Graph, get_lineage_graph p = .ok g := by
  refine ⟨⟨(p.entities.getD []).map specProjectedNode,
          (p.relations.getD []).map specProjectedEdge⟩, ?_⟩
  unfold get_lineage_graph
  rw [mapM_projectNode_of_wf _ he, mapM_projectEdge_of_wf _ hr]
  rfl

theorem lineage_projection_total_witness :
    ∃ g : Graph,
      get_lineage_graph
        ⟨some [⟨some "b1", some "View", some []⟩],
         some [⟨some "b1", some "b2", none⟩]⟩ = .ok g :=
  lineage_projection_total_on_required_fields
    ⟨some [⟨some "b1", some "View", some []⟩],
     some [⟨some "b1", some "b2", none⟩]⟩ (by decide) (by decide)

/-- Claim C7: with a truthy static API key, `get_headers` returns the two base
headers plus `X-Atlan-API-Key` (and no `Authorization` header), leaves the
state untouched and issues no network call, for every possible outcome of
the token endpoints (so `get_access_token` is never invoked, whatever the
client id/secret); otherwise it forwards `get_access_token`'s state and
calls and, on success, adds exactly one `Authorization: Bearer` header. -/
theorem get_headers_spec (cfg : AuthConfig) (now : Nat)
    (r m : Except Unit TokenResponse) (s : AuthState) :
    (optStrTruthy cfg.api_key = true →
      get_headers cfg now r m s =
        ⟨.ok (baseHeaders ++ [("X-Atlan-API-Key", cfg.api_key.getD "")]), s, []⟩ ∧
      (baseHeaders ++ [("X-Atlan-API-Key", cfg.api_key.getD "")]).countP
        (fun p => p.1 == "Authorization") = 0) ∧
    (optStrTruthy cfg.api_key = false →
      get_headers cfg now r m s =
        (match get_access_token now r m s with
         | ⟨.ok tok, s1, cs⟩ =>
           ⟨.ok (baseHeaders ++ [("Authorization", "Bearer " ++ optTokenStr tok)]), s1, cs⟩
         | ⟨.error e, s1, cs⟩ => ⟨.error e, s1, cs⟩) ∧
      (match get_access_token now r m s with
       | ⟨.ok tok, _, _⟩ =>
         (baseHeaders ++ [("Authorization", "Bearer " ++ optTokenStr tok)]).countP
           (fun p => p.1 == "Authorization") = 1 ∧
         (baseHeaders ++ [("Authorization", "Bearer " ++ optTokenStr tok)]).countP
           (fun p => p.1 == "X-Atlan-API-Key") = 0
       | ⟨.error _, _, _⟩ => True)) := by
  constructor
  · intro h
    refine ⟨by simp [get_headers, h], ?_⟩
    simp [baseHeaders, List.countP_cons]
  · intro h
    rcases hga : get_access_token now r m s with ⟨res, s1, cs⟩
    cases res with
    | ok tok =>
      refine ⟨?_, ?_⟩
      · simp [get_headers, h, hga]
      · simp [baseHeaders, List.countP_cons, List.countP_nil]
    | error e =>
      refine ⟨?_, trivial⟩
      simp [get_headers, h, hga]

theorem get_headers_spec_witness :
    get_headers ⟨some "k"⟩ 0 (.error ()) (.error ()) ⟨none, none, none⟩ =
      ⟨.ok (baseHeaders ++ [("X-Atlan-API-Key", "k")]), ⟨none, none, none⟩, []⟩ :=
  ((get_headers_spec ⟨some "k"⟩ 0 (.error ()) (.error ()) ⟨none, none, none⟩).1 (by decide)).1
